import Mathlib

/-
Shallow embedding of the full_library_api repository (Python, stdlib-only
HTTP API over JSON-file storage).  Sources embedded here:
  - models.py   : User, Author, Book, Loan dataclasses and Loan.status
  - auth.py     : require_role
  - utils.py    : paginate
  - app.py      : _parse_resource_path, do_POST (borrow / return / author
                  create), do_PUT (author update / book update), do_PATCH
JSON scalar values appearing in request bodies are modelled by PyVal
(ints, strings, booleans and null); Python `None` (a missing key or a JSON
null) is PyVal.pNull.  Timestamps (ISO strings produced by
datetime.utcnow().isoformat()) are modelled as integers counting seconds,
with timedelta(days=14) becoming `days 14 = 14 * 86400`.  The persistence
layer (storage.py) is modelled by the state record LibState together with
an explicit list of SaveEvent values recording which collections a handler
writes back.
-/

namespace FullLibraryApi

/-- Scalar JSON / Python values occurring in request bodies.  Python's
`None` (absent key or JSON null) is `pNull`. -/
inductive PyVal where
  | pInt (n : Int)
  | pStr (s : String)
  | pBool (b : Bool)
  | pNull
deriving DecidableEq, Repr

/-- Python truthiness for scalar values: 0, "", False and None are falsy. -/
def PyVal.truthy : PyVal → Bool
  | .pInt n => n != 0
  | .pStr s => s != ""
  | .pBool b => b
  | .pNull => false

/-- Characters stripped by Python's int() conversion of a string. -/
def isPySpace (c : Char) : Bool :=
  c == ' ' || c == '\t' || c == '\n' || c == '\r' || c == '\x0b' || c == '\x0c'

/-- Numeric value of a decimal digit character. -/
def digitVal (c : Char) : Nat := c.toNat - 48

/-- Digits of a Python integer literal after the first digit: a single
underscore is permitted between two digits. -/
def pyDigitsAux : List Char → Nat → Option Nat
  | [], acc => some acc
  | '_' :: rest, acc =>
      match rest with
      | c :: rest2 => if c.isDigit then pyDigitsAux rest2 (acc * 10 + digitVal c) else none
      | [] => none
  | c :: rest, acc => if c.isDigit then pyDigitsAux rest (acc * 10 + digitVal c) else none

/-- Parse a nonempty run of decimal digits (with Python's underscore rule). -/
def pyDigits? : List Char → Option Nat
  | [] => none
  | c :: rest => if c.isDigit then pyDigitsAux rest (digitVal c) else none

/-- Python `int(s)` on a character list: strip whitespace, optional sign,
then decimal digits; `none` models the ValueError raised otherwise. -/
def pyCharsToInt? (cs : List Char) : Option Int :=
  let cs2 := ((cs.dropWhile isPySpace).reverse.dropWhile isPySpace).reverse
  match cs2 with
  | '+' :: rest => (pyDigits? rest).map (fun n => (n : Int))
  | '-' :: rest => (pyDigits? rest).map (fun n => -(n : Int))
  | _ => (pyDigits? cs2).map (fun n => (n : Int))

/-- Python `int(s)` on a string. -/
def pyStrToInt? (s : String) : Option Int := pyCharsToInt? s.data

/-- Python `int(v)` on a scalar value; `none` models the ValueError or
TypeError raised for unparseable strings and for None. -/
def PyVal.toInt? : PyVal → Option Int
  | .pInt n => some n
  | .pStr s => pyStrToInt? s
  | .pBool b => some (if b then 1 else 0)
  | .pNull => none

/-- Python `str(v)` on a scalar value. -/
def PyVal.pyStr : PyVal → String
  | .pInt n => toString n
  | .pStr s => s
  | .pBool b => if b then "True" else "False"
  | .pNull => "None"

/-- Python `a or b` restricted to two scalar values: the first if truthy,
otherwise the second. -/
def pyOr2 (a b : PyVal) : PyVal := if a.truthy then a else b

/-- ASCII upper-casing of a character, as Python str.upper does on ASCII. -/
def asciiUpper (c : Char) : Char :=
  if 'a' ≤ c && c ≤ 'z' then Char.ofNat (c.toNat - 32) else c

/-- Python `s.upper()` (ASCII fragment). -/
def pyUpper (s : String) : String := String.mk (s.data.map asciiUpper)

/-- Check that the second character list is a leading segment of the first. -/
def listStartsWith : List Char → List Char → Bool
  | _, [] => true
  | [], _ :: _ => false
  | a :: s, b :: p => a == b && listStartsWith s p

/-- Python `s.startswith(p)`. -/
def strStartsWith (s p : String) : Bool := listStartsWith s.data p.data

/-- Python `s.endswith("/")`. -/
def strEndsWithSlash (s : String) : Bool :=
  match s.data.getLast? with
  | some '/' => true
  | _ => false

/-- Python `s.split(sep)` accumulator loop for a one-character separator. -/
def splitCharAux (sep : Char) : List Char → List Char → List (List Char)
  | [], acc => [acc.reverse]
  | c :: cs, acc =>
      if c == sep then acc.reverse :: splitCharAux sep cs [] else splitCharAux sep cs (c :: acc)

/-- models.py: User dataclass. -/
structure User where
  id : Int
  username : String
  email : String
  password_hash : String
  role : String
deriving DecidableEq, Repr

/-- models.py: Author dataclass.  The update and create handlers assign the
raw JSON value to `name`, so it is a PyVal rather than a string. -/
structure Author where
  id : Int
  name : PyVal
deriving DecidableEq, Repr

/-- models.py: Book dataclass. -/
structure Book where
  id : Int
  title : String
  publication_year : Int
  isbn : String
  author_id : Int
  total_copies : Int
  available_copies : Int
deriving DecidableEq, Repr

/-- models.py: Loan dataclass, timestamps as integer seconds. -/
structure Loan where
  id : Int
  user_id : Int
  book_id : Int
  borrowed_at : Int
  due_at : Int
  returned_at : Option Int
deriving DecidableEq, Repr

/-- models.py: Loan.status property. -/
def Loan.status (l : Loan) : String :=
  if l.returned_at.isSome then "RETURNED" else "BORROWED"

/-- timedelta(days = n) in seconds. -/
def days (n : Int) : Int := n * 86400

/-- The JSON-file collections the handlers read and write (storage.py),
as in-memory state. -/
structure LibState where
  authors : List Author
  books : List Book
  loans : List Loan
deriving DecidableEq, Repr

/-- A call of one of storage.py's save functions. -/
inductive SaveEvent where
  | saveAuthors
  | saveBooks
  | saveLoans
deriving DecidableEq, Repr

/-- The observable part of a handler's HTTP response: either an error
envelope (HTTP status and `code` string) or a 2xx payload carrying the
serialized entity. -/
inductive ApiResult where
  | errorResp (httpStatus : Nat) (code : String)
  | loanResp (httpStatus : Nat) (l : Loan)
  | authorResp (httpStatus : Nat) (a : Author)
  | bookResp (httpStatus : Nat) (b : Book)
deriving DecidableEq, Repr

/-- auth.py require_role: authenticated and role (upper-cased) among the
allowed roles. -/
def require_role (user : Option User) (roles : List String) : Bool :=
  match user with
  | none => false
  | some u => (roles.map pyUpper).contains (pyUpper u.role)

/-- utils.py paginate: pagination metadata. -/
structure PageMeta where
  count : Nat
  page : Int
  page_size : Int
  total_pages : Nat
deriving DecidableEq, Repr

/-- utils.py paginate.  `math.ceil(total / page_size)` for the clamped
page_size ≥ 1 is the exact natural ceiling `(total + sz - 1) / sz`;
`items[start:start + page_size]` is drop-then-take. -/
def paginate {α : Type} (items : List α) (page page_size : Int) :
    List α × PageMeta :=
  let total := items.length
  let page1 := max page 1
  let size1 := max page_size 1
  let start := ((page1 - 1) * size1).toNat
  let sz := size1.toNat
  ((items.drop start).take sz,
   { count := total, page := page1, page_size := size1,
     total_pages := (total + sz - 1) / sz })

/-- The first step of app.py _parse_resource_path: make the resource path
piece end in '/'. -/
def ensureSlash (p : String) : String :=
  if strEndsWithSlash p then p else p ++ "/"

/-- Body of app.py _parse_resource_path once the piece ends in '/': the
remainder is split on '/' and the FIRST segment is fed to Python int();
extra segments are not inspected. -/
def parseResourcePathSlashed (path pfx : String) : String × Option Int :=
  if listStartsWith path.data pfx.data then
    if path.data.drop pfx.data.length = [] ∨ path.data.drop pfx.data.length = ['/'] then
      (pfx, none)
    else
      match pyCharsToInt? ((splitCharAux '/' (path.data.drop pfx.data.length) []).headD []) with
      | some n => (pfx ++ toString n ++ "/", some n)
      | none => (path, none)
  else (path, none)

/-- app.py _parse_resource_path (lines 60-78): returns (base_path,
optional id). -/
def parseResourcePath (path pfx0 : String) : String × Option Int :=
  parseResourcePathSlashed path (ensureSlash pfx0)

/-- Python `max([...ids...], default=0)`: maximum of the list when it is
nonempty, 0 when empty. -/
def maxIdDefault0 : List Int → Int
  | [] => 0
  | x :: xs => xs.foldl max x

/-- In-place mutation of the first list element satisfying a predicate,
as the handlers do after locating an entity with `next(...)`. -/
def updateFirst {α : Type} (p : α → Bool) (f : α → α) : List α → List α
  | [] => []
  | x :: xs => if p x then f x :: xs else x :: updateFirst p f xs

/-- Predicate `b.id == i` used by the handlers' book lookups. -/
def hasId (i : Int) (b : Book) : Bool := b.id == i

/-- Predicate `a.id == i` used by the handlers' author lookups. -/
def authorHasId (i : Int) (a : Author) : Bool := a.id == i

/-- Predicate `l.id == i` used by the handlers' loan-by-id lookups. -/
def loanHasId (i : Int) (l : Loan) : Bool := l.id == i

/-- Predicate for an active (unreturned) loan of a given user on a given
book, in the order the borrow handler writes it. -/
def activeFor (uid bid : Int) (l : Loan) : Bool :=
  l.user_id == uid && (l.book_id == bid && l.returned_at.isNone)

/-- Request body of POST /api/loans/borrow/ (the two keys the handler
reads); a field is `none` when the key is absent. -/
structure BorrowBody where
  book_id : Option PyVal
  book : Option PyVal
deriving DecidableEq, Repr

/-- Request body of POST /api/loans/return/. -/
structure ReturnBody where
  loan_id : Option PyVal
  book_id : Option PyVal
  book : Option PyVal
deriving DecidableEq, Repr

/-- Request body of POST /api/authors/. -/
structure AuthorBody where
  name : Option PyVal
deriving DecidableEq, Repr

/-- Request body of PUT/PATCH on authors or books (the keys those handlers
read). -/
structure UpdateBody where
  name : Option PyVal
  title : Option PyVal
  publication_year : Option PyVal
  isbn : Option PyVal
  author : Option PyVal
  total_copies : Option PyVal
  available_copies : Option PyVal
deriving DecidableEq, Repr

/-- app.py do_POST, path /api/loans/borrow/ (lines 143-192). -/
def borrowHandler (user : Option User) (body : BorrowBody) (now : Int)
    (st : LibState) : ApiResult × LibState × List SaveEvent :=
  if !require_role user ["MEMBER", "LIBRARIAN", "ADMIN"] then
    (.errorResp 401 "not_authenticated", st, [])
  else
    match user with
    | none => (.errorResp 401 "not_authenticated", st, [])
    | some u =>
      let v := pyOr2 (body.book_id.getD .pNull) (body.book.getD .pNull)
      if !v.truthy then (.errorResp 400 "invalid", st, [])
      else
        match v.toInt? with
        | none => (.errorResp 400 "invalid", st, [])
        | some bid =>
          match st.books.find? (hasId bid) with
          | none => (.errorResp 404 "not_found", st, [])
          | some bk =>
            if bk.available_copies < 1 then (.errorResp 409 "no_copies", st, [])
            else
              match st.loans.find? (activeFor u.id bid) with
              | some _ => (.errorResp 409 "duplicate_loan", st, [])
              | none =>
                let nid := maxIdDefault0 (st.loans.map Loan.id) + 1
                let nl : Loan :=
                  { id := nid, user_id := u.id, book_id := bid,
                    borrowed_at := now, due_at := now + days 14,
                    returned_at := none }
                (.loanResp 201 nl,
                 { st with
                    books := updateFirst (hasId bid)
                      (fun b => { b with available_copies := b.available_copies - 1 })
                      st.books,
                    loans := st.loans ++ [nl] },
                 [SaveEvent.saveBooks, SaveEvent.saveLoans])

/-- How the return handler resolves its target loan: by explicit loan id,
by (book id, requesting user, unreturned), or not at all (also covering
an int() conversion failure, after which the Python code leaves the
target unset). -/
inductive ReturnSel where
  | byLoanId (lid : Int)
  | byBook (bid : Int)
  | unresolved
deriving DecidableEq, Repr

/-- The loan lookup predicate corresponding to a return-target selector. -/
def returnPred (u : User) : ReturnSel → Loan → Bool
  | .byLoanId lid, l => l.id == lid
  | .byBook bid, l => l.book_id == bid && (l.user_id == u.id && l.returned_at.isNone)
  | .unresolved, _ => false

/-- The selector computed by the return handler from its body: the loan_id
branch is taken whenever the key is present and non-null, otherwise the
book_id branch when that value is non-null. -/
def returnSelOf (body : ReturnBody) : ReturnSel :=
  let loanIdVal := body.loan_id.getD .pNull
  let bookIdVal := pyOr2 (body.book_id.getD .pNull) (body.book.getD .pNull)
  if loanIdVal ≠ PyVal.pNull then
    match loanIdVal.toInt? with
    | some lid => .byLoanId lid
    | none => .unresolved
  else if bookIdVal ≠ PyVal.pNull then
    match bookIdVal.toInt? with
    | some bid => .byBook bid
    | none => .unresolved
  else .unresolved

/-- app.py do_POST, path /api/loans/return/ (lines 194-238). -/
def returnHandler (user : Option User) (body : ReturnBody) (now : Int)
    (st : LibState) : ApiResult × LibState × List SaveEvent :=
  if !require_role user ["MEMBER", "LIBRARIAN", "ADMIN"] then
    (.errorResp 401 "not_authenticated", st, [])
  else
    match user with
    | none => (.errorResp 401 "not_authenticated", st, [])
    | some u =>
      let sel := returnSelOf body
      match st.loans.find? (returnPred u sel) with
      | none => (.errorResp 404 "not_found", st, [])
      | some target =>
        if target.user_id != u.id && !require_role (some u) ["LIBRARIAN", "ADMIN"] then
          (.errorResp 403 "permission_denied", st, [])
        else if target.returned_at.isSome then
          (.errorResp 409 "already_returned", st, [])
        else
          let loans2 := updateFirst (returnPred u sel)
            (fun l => { l with returned_at := some now }) st.loans
          match st.books.find? (hasId target.book_id) with
          | some _ =>
            (.loanResp 200 { target with returned_at := some now },
             { st with
                books := updateFirst (hasId target.book_id)
                  (fun b => { b with available_copies := b.available_copies + 1 })
                  st.books,
                loans := loans2 },
             [SaveEvent.saveBooks, SaveEvent.saveLoans])
          | none =>
            (.loanResp 200 { target with returned_at := some now },
             { st with loans := loans2 }, [SaveEvent.saveLoans])

/-- app.py do_POST, path /api/authors/ (lines 241-258): note that the role
check failure answers 401 not_authenticated for any non-staff caller,
authenticated or not. -/
def createAuthorHandler (user : Option User) (body : AuthorBody)
    (st : LibState) : ApiResult × LibState × List SaveEvent :=
  if !require_role user ["LIBRARIAN", "ADMIN"] then
    (.errorResp 401 "not_authenticated", st, [])
  else
    let nameVal := body.name.getD .pNull
    if !nameVal.truthy then (.errorResp 400 "invalid", st, [])
    else
      let nid := maxIdDefault0 (st.authors.map Author.id) + 1
      let na : Author := { id := nid, name := nameVal }
      (.authorResp 201 na, { st with authors := st.authors ++ [na] },
       [SaveEvent.saveAuthors])

/-- app.py do_PUT author branch (lines 461-478): a falsy `name` leaves the
author untouched and skips the save, but still answers 200. -/
def authorUpdate (user : Option User) (rid : Int) (body : UpdateBody)
    (st : LibState) : ApiResult × LibState × List SaveEvent :=
  if !require_role user ["LIBRARIAN", "ADMIN"] then
    (.errorResp 403 "permission_denied", st, [])
  else
    match st.authors.find? (authorHasId rid) with
    | none => (.errorResp 404 "not_found", st, [])
    | some a =>
      let nameVal := body.name.getD .pNull
      if nameVal.truthy then
        let authors2 :=
          updateFirst (authorHasId rid) (fun x => { x with name := nameVal }) st.authors
        (.authorResp 200 { a with name := nameVal },
         { st with authors := authors2 },
         [SaveEvent.saveAuthors])
      else
        (.authorResp 200 a, st, [])

/-- app.py do_PUT book branch, title field (line 494-495). -/
def applyTitle (body : UpdateBody) (b : Book) : Book :=
  match body.title with
  | some v => { b with title := v.pyStr }
  | none => b

/-- app.py do_PUT book branch, publication_year field (lines 496-500),
invalid conversion silently ignored. -/
def applyPublicationYear (body : UpdateBody) (b : Book) : Book :=
  match body.publication_year with
  | some v =>
    match v.toInt? with
    | some y => { b with publication_year := y }
    | none => b
  | none => b

/-- app.py do_PUT book branch, isbn field (lines 501-502). -/
def applyIsbn (body : UpdateBody) (b : Book) : Book :=
  match body.isbn with
  | some v => { b with isbn := v.pyStr }
  | none => b

/-- app.py do_PUT book branch, author field (lines 503-511): only applied
when the referenced author exists. -/
def applyAuthorField (body : UpdateBody) (authors : List Author) (b : Book) : Book :=
  match body.author with
  | some v =>
    match v.toInt? with
    | some aid => if authors.any (authorHasId aid) then { b with author_id := aid } else b
    | none => b
  | none => b

/-- app.py do_PUT book branch, total_copies field (lines 512-519):
available_copies moves by the same delta, floored at 0. -/
def applyTotalCopies (body : UpdateBody) (b : Book) : Book :=
  match body.total_copies with
  | some v =>
    match v.toInt? with
    | some newTotal =>
      { b with total_copies := newTotal,
               available_copies := max (b.available_copies + (newTotal - b.total_copies)) 0 }
    | none => b
  | none => b

/-- app.py do_PUT book branch, available_copies field (lines 520-524). -/
def applyAvailableCopies (body : UpdateBody) (b : Book) : Book :=
  match body.available_copies with
  | some v =>
    match v.toInt? with
    | some n => { b with available_copies := n }
    | none => b
  | none => b

/-- The whole per-field update block of the book PUT handler, in source
order. -/
def applyBookUpdates (body : UpdateBody) (authors : List Author) (b : Book) : Book :=
  applyAvailableCopies body
    (applyTotalCopies body
      (applyAuthorField body authors
        (applyIsbn body
          (applyPublicationYear body
            (applyTitle body b)))))

/-- app.py do_PUT book branch (lines 481-527). -/
def bookUpdate (user : Option User) (rid : Int) (body : UpdateBody)
    (st : LibState) : ApiResult × LibState × List SaveEvent :=
  if !require_role user ["LIBRARIAN", "ADMIN"] then
    (.errorResp 403 "permission_denied", st, [])
  else
    match st.books.find? (hasId rid) with
    | none => (.errorResp 404 "not_found", st, [])
    | some b =>
      let books2 :=
        updateFirst (hasId rid) (fun x => applyBookUpdates body st.authors x) st.books
      (.bookResp 200 (applyBookUpdates body st.authors b),
       { st with books := books2 },
       [SaveEvent.saveBooks])

/-- app.py do_PUT (lines 456-530): dispatch on the parsed resource path. -/
def doPUT (path : String) (user : Option User) (body : UpdateBody)
    (st : LibState) : ApiResult × LibState × List SaveEvent :=
  let pa := parseResourcePath path "/api/authors/"
  if strStartsWith pa.1 "/api/authors/" && pa.2.isSome then
    authorUpdate user (pa.2.getD 0) body st
  else
    let pb := parseResourcePath path "/api/books/"
    if strStartsWith pb.1 "/api/books/" && pb.2.isSome then
      bookUpdate user (pb.2.getD 0) body st
    else
      (.errorResp 404 "not_found", st, [])

/-- app.py do_PATCH (lines 532-534): delegates to do_PUT. -/
def doPATCH (path : String) (user : Option User) (body : UpdateBody)
    (st : LibState) : ApiResult × LibState × List SaveEvent :=
  doPUT path user body st

/-- The invariant claimed in the spec: at most one active (unreturned) loan
per (user_id, book_id) pair. -/
def atMostOneActive (loans : List Loan) : Prop :=
  ∀ uid bid : Int, (loans.filter (activeFor uid bid)).length ≤ 1

/-- Sample member user used by concrete witnesses. -/
def memberAlice : User :=
  { id := 1, username := "alice", email := "alice@example.com",
    password_hash := "h", role := "MEMBER" }

/-- Sample staff user used by concrete witnesses. -/
def librarianLea : User :=
  { id := 2, username := "lea", email := "lea@example.com",
    password_hash := "h", role := "LIBRARIAN" }

/-- Sample author used by concrete witnesses. -/
def sampleAuthor : Author := { id := 1, name := .pStr "Frank Herbert" }

/-- Sample book with two available copies. -/
def sampleBook : Book :=
  { id := 1, title := "Dune", publication_year := 1965, isbn := "0441172717",
    author_id := 1, total_copies := 2, available_copies := 2 }

/-- Sample book with a single available copy. -/
def sampleBookOneCopy : Book := { sampleBook with available_copies := 1 }

/-- Sample state with one author and one book and no loans. -/
def sampleState : LibState :=
  { authors := [sampleAuthor], books := [sampleBook], loans := [] }

/-- Sample active loan of alice on the sample book. -/
def sampleLoan : Loan :=
  { id := 1, user_id := 1, book_id := 1, borrowed_at := 0, due_at := days 14,
    returned_at := none }

/-- Sample state in which alice holds an active loan on the sample book and
one copy remains on the shelf. -/
def stateWithLoan : LibState :=
  { authors := [sampleAuthor], books := [sampleBookOneCopy], loans := [sampleLoan] }

/-- Sample state in which alice holds an active loan while the book still
shows available copies. -/
def stateWithDupRisk : LibState :=
  { authors := [sampleAuthor], books := [sampleBook], loans := [sampleLoan] }

/-- Sample borrow body naming book 1. -/
def borrowBody1 : BorrowBody := { book_id := some (.pInt 1), book := none }

/-- Sample return body naming loan 1. -/
def returnBody1 : ReturnBody := { loan_id := some (.pInt 1), book_id := none, book := none }

/-- Sample return body naming book 1 instead of a loan id, exercising the
(book_id, requesting user, unreturned) resolution path. -/
def returnBodyByBook : ReturnBody :=
  { loan_id := none, book_id := some (.pInt 1), book := none }

/-- Sample update body carrying only total_copies := 5. -/
def totalCopiesBody : UpdateBody :=
  { name := none, title := none, publication_year := none, isbn := none,
    author := none, total_copies := some (.pInt 5), available_copies := none }

/-- Sample update body whose name field is the empty string (falsy). -/
def emptyNameBody : UpdateBody :=
  { name := some (.pStr ""), title := none, publication_year := none,
    isbn := none, author := none, total_copies := none, available_copies := none }

/-- Mutating the first element found by a predicate keeps it the first
element found, provided the mutation preserves the predicate. -/
theorem find?_updateFirst {α : Type} (p : α → Bool) (f : α → α) (l : List α)
    (x : α) (hx : l.find? p = some x) (hf : p (f x) = true) :
    (updateFirst p f l).find? p = some (f x) := by
  induction l with
  | nil => simp [List.find?] at hx
  | cons a as ih =>
    by_cases h : p a = true
    · rw [List.find?_cons_of_pos _ h] at hx
      injection hx with hx
      subst hx
      simp [updateFirst, h, List.find?_cons_of_pos _ hf]
    · have hfalse : p a = false := by
        cases hpa : p a
        · rfl
        · exact absurd hpa h
      rw [List.find?_cons_of_neg _ (by simp [hfalse])] at hx
      rw [updateFirst, if_neg (by simp [hfalse])]
      rw [List.find?_cons_of_neg _ (by simp [hfalse])]
      exact ih hx

/-- Locating an element with find? splits the list at its first match, and
mutating the first match rewrites exactly that position. -/
theorem updateFirst_decomp {α : Type} (p : α → Bool) (f : α → α) (l : List α)
    (x : α) (hx : l.find? p = some x) :
    ∃ l1 l2, l = l1 ++ x :: l2 ∧ (∀ y ∈ l1, p y = false) ∧
      updateFirst p f l = l1 ++ f x :: l2 := by
  induction l with
  | nil => simp [List.find?] at hx
  | cons a as ih =>
    by_cases h : p a = true
    · rw [List.find?_cons_of_pos _ h] at hx
      injection hx with hx
      subst hx
      exact ⟨[], as, rfl, by simp, by simp [updateFirst, h]⟩
    · have hfalse : p a = false := by
        cases hpa : p a
        · rfl
        · exact absurd hpa h
      rw [List.find?_cons_of_neg _ (by simp [hfalse])] at hx
      obtain ⟨l1, l2, he, hpre, hupd⟩ := ih hx
      refine ⟨a :: l1, l2, by rw [List.cons_append, he], ?_, ?_⟩
      · intro y hy
        rcases List.mem_cons.mp hy with hy1 | hy2
        · rw [hy1]
          exact hfalse
        · exact hpre y hy2
      · rw [updateFirst, if_neg (by simp [hfalse]), hupd, List.cons_append]

/-- A find? miss means the corresponding filter is empty. -/
theorem filter_eq_nil_of_find?_none {α : Type} (p : α → Bool) (l : List α)
    (h : l.find? p = none) : l.filter p = [] := by
  rw [List.filter_eq_nil_iff]
  intro a ha
  have := List.find?_eq_none.mp h a ha
  simp [this]

/-- The natural-number formula `(t + s - 1) / s` used by paginate computes
the rational ceiling `math.ceil(t / s)` for every s ≥ 1. -/
theorem natCeilDiv_cast (t s : Nat) (hs : 1 ≤ s) :
    (((t + s - 1) / s : Nat) : Int) = ⌈(t : ℚ) / (s : ℚ)⌉ := by
  have hs0 : 0 < s := hs
  have hA : ((t + s - 1) / s) * s ≤ t + s - 1 := Nat.div_mul_le_self _ _
  have hB : t + s - 1 < ((t + s - 1) / s + 1) * s :=
    (Nat.div_lt_iff_lt_mul hs0).mp (Nat.lt_succ_self _)
  set z := (t + s - 1) / s with hzdef
  have hB2 : t + s - 1 < z * s + s := by
    calc t + s - 1 < (z + 1) * s := hB
    _ = z * s + s := by ring
  have h1 : t ≤ z * s := by
    set a := z * s with hadef
    omega
  have h2 : z * s < t + s := by
    set a := z * s with hadef
    omega
  have hsQ : (0 : ℚ) < (s : ℚ) := by exact_mod_cast hs0
  rw [eq_comm, Int.ceil_eq_iff]
  constructor
  · rw [lt_div_iff₀ hsQ]
    have hq : ((z : ℚ)) * s < t + s := by exact_mod_cast h2
    push_cast
    nlinarith
  · rw [div_le_iff₀ hsQ]
    have hq : (t : ℚ) ≤ ((z : ℚ)) * s := by exact_mod_cast h1
    push_cast
    nlinarith

/-- Every branch of the borrow handler either leaves the state untouched
and saves nothing, or answers 201 with a new loan. -/
theorem borrow_result_cases (user : Option User) (body : BorrowBody)
    (now : Int) (st : LibState) :
    (borrowHandler user body now st).2 = (st, []) ∨
    ∃ nl, (borrowHandler user body now st).1 = .loanResp 201 nl := by
  simp only [borrowHandler]
  split
  · left; rfl
  split
  · left; rfl
  split
  · left; rfl
  split
  · left; rfl
  split
  · left; rfl
  split
  · left; rfl
  split
  · left; rfl
  · right; exact ⟨_, rfl⟩

/-- The title field of the update block does not touch the copy counts. -/
theorem applyTitle_copies (body : UpdateBody) (b : Book) :
    (applyTitle body b).total_copies = b.total_copies ∧
    (applyTitle body b).available_copies = b.available_copies := by
  cases h : body.title <;> simp only [applyTitle, h] <;> exact ⟨trivial, trivial⟩

/-- The publication_year field of the update block does not touch the copy
counts. -/
theorem applyPublicationYear_copies (body : UpdateBody) (b : Book) :
    (applyPublicationYear body b).total_copies = b.total_copies ∧
    (applyPublicationYear body b).available_copies = b.available_copies := by
  cases h : body.publication_year with
  | none => simp only [applyPublicationYear, h]; exact ⟨trivial, trivial⟩
  | some v =>
    cases h2 : v.toInt? <;> simp only [applyPublicationYear, h, h2] <;> exact ⟨trivial, trivial⟩

/-- The isbn field of the update block does not touch the copy counts. -/
theorem applyIsbn_copies (body : UpdateBody) (b : Book) :
    (applyIsbn body b).total_copies = b.total_copies ∧
    (applyIsbn body b).available_copies = b.available_copies := by
  cases h : body.isbn <;> simp only [applyIsbn, h] <;> exact ⟨trivial, trivial⟩

/-- The author field of the update block does not touch the copy counts. -/
theorem applyAuthorField_copies (body : UpdateBody) (authors : List Author) (b : Book) :
    (applyAuthorField body authors b).total_copies = b.total_copies ∧
    (applyAuthorField body authors b).available_copies = b.available_copies := by
  cases h : body.author with
  | none => simp only [applyAuthorField, h]; exact ⟨trivial, trivial⟩
  | some v =>
    cases h2 : v.toInt? with
    | none => simp only [applyAuthorField, h, h2]; exact ⟨trivial, trivial⟩
    | some aid =>
      by_cases h3 : authors.any (authorHasId aid) = true
      · simp only [applyAuthorField, h, h2, if_pos h3]; exact ⟨trivial, trivial⟩
      · simp only [applyAuthorField, h, h2, if_neg h3]; exact ⟨trivial, trivial⟩

/-- An integer total_copies in the body rewrites the copy counts as the
source's delta formula. -/
theorem applyTotalCopies_at_int (body : UpdateBody) (b : Book) (n : Int)
    (ht : body.total_copies = some (PyVal.pInt n)) :
    applyTotalCopies body b =
      { b with total_copies := n,
               available_copies := max (b.available_copies + (n - b.total_copies)) 0 } := by
  unfold applyTotalCopies
  rw [ht]
  rfl

/-- An absent available_copies key leaves the book unchanged by that step. -/
theorem applyAvailableCopies_none (body : UpdateBody) (b : Book)
    (ha : body.available_copies = none) :
    applyAvailableCopies body b = b := by
  unfold applyAvailableCopies
  rw [ha]

/-- C7: for every book update request whose body provides an integer
total_copies and no available_copies field, the handler answers 200 with
the updated book, saves it, and the updated book's total_copies equals the
provided value while its available_copies moves by the same delta, floored
at 0. -/
theorem book_update_total_copies (user : Option User) (rid : Int)
    (body : UpdateBody) (st : LibState) (b : Book) (n : Int)
    (hrole : require_role user ["LIBRARIAN", "ADMIN"] = true)
    (hfind : st.books.find? (hasId rid) = some b)
    (ht : body.total_copies = some (PyVal.pInt n))
    (ha : body.available_copies = none) :
    bookUpdate user rid body st =
      (.bookResp 200 (applyBookUpdates body st.authors b),
       { st with
          books := updateFirst (hasId rid)
            (fun x => applyBookUpdates body st.authors x) st.books },
       [SaveEvent.saveBooks]) ∧
    (applyBookUpdates body st.authors b).total_copies = n ∧
    (applyBookUpdates body st.authors b).available_copies =
      max (b.available_copies + (n - b.total_copies)) 0 := by
  refine ⟨?_, ?_⟩
  · simp only [bookUpdate, hrole, Bool.not_true, Bool.false_eq_true, if_false]
    rw [hfind]
  · have h1 := applyTitle_copies body b
    have h2 := applyPublicationYear_copies body (applyTitle body b)
    have h3 := applyIsbn_copies body (applyPublicationYear body (applyTitle body b))
    have h4 := applyAuthorField_copies body st.authors
      (applyIsbn body (applyPublicationYear body (applyTitle body b)))
    unfold applyBookUpdates
    rw [applyTotalCopies_at_int body _ n ht, applyAvailableCopies_none body _ ha]
    simp only [h1.1, h1.2, h2.1, h2.2, h3.1, h3.2, h4.1, h4.2]
    exact ⟨trivial, trivial⟩

/-- C7 witness: a librarian setting total_copies := 5 on the sample book
(two of two copies available) yields total 5 and available 5. -/
theorem book_update_total_copies_witness :
    require_role (some librarianLea) ["LIBRARIAN", "ADMIN"] = true ∧
    sampleState.books.find? (hasId 1) = some sampleBook ∧
    totalCopiesBody.total_copies = some (PyVal.pInt 5) ∧
    totalCopiesBody.available_copies = none ∧
    ((applyBookUpdates totalCopiesBody sampleState.authors sampleBook).total_copies = 5 ∧
     (applyBookUpdates totalCopiesBody sampleState.authors sampleBook).available_copies =
       max (sampleBook.available_copies + (5 - sampleBook.total_copies)) 0) :=
  ⟨by decide, by decide, by decide, by decide,
   (book_update_total_copies (some librarianLea) 1 totalCopiesBody sampleState
      sampleBook 5 (by decide) (by decide) (by decide) (by decide)).2⟩

/-- C8: the PATCH handler is the PUT handler: on every request and
pre-state it produces the same response, post-state and save events. -/
theorem patch_equals_put (path : String) (user : Option User)
    (body : UpdateBody) (st : LibState) :
    doPATCH path user body st = doPUT path user body st := rfl

/-- C10: an author update request whose name field is absent or falsy
answers 200 with the author's current fields, leaves the state unchanged
and saves nothing. -/
theorem author_update_falsy_name_noop (user : Option User) (rid : Int)
    (body : UpdateBody) (st : LibState) (a : Author)
    (hrole : require_role user ["LIBRARIAN", "ADMIN"] = true)
    (hfind : st.authors.find? (authorHasId rid) = some a)
    (hname : (body.name.getD PyVal.pNull).truthy = false) :
    authorUpdate user rid body st = (.authorResp 200 a, st, []) := by
  simp only [authorUpdate, hrole, Bool.not_true, Bool.false_eq_true, if_false]
  rw [hfind]
  simp [hname]

/-- C10 witness: a librarian sending name := "" for the sample author gets
200 with the stored author and nothing is written. -/
theorem author_update_falsy_name_noop_witness :
    require_role (some librarianLea) ["LIBRARIAN", "ADMIN"] = true ∧
    sampleState.authors.find? (authorHasId 1) = some sampleAuthor ∧
    (emptyNameBody.name.getD PyVal.pNull).truthy = false ∧
    authorUpdate (some librarianLea) 1 emptyNameBody sampleState =
      (.authorResp 200 sampleAuthor, sampleState, []) :=
  ⟨by decide, by decide, by decide,
   author_update_falsy_name_noop (some librarianLea) 1 emptyNameBody sampleState
     sampleAuthor (by decide) (by decide) (by decide)⟩

/-- C4 counterexample: a MEMBER's POST /api/authors/ is answered 401 with
code not_authenticated, not the claimed forbidden response with code
permission_denied. -/
theorem member_create_author_counterexample :
    createAuthorHandler (some memberAlice) { name := some (.pStr "X") } sampleState =
      (.errorResp 401 "not_authenticated", sampleState, []) ∧
    (createAuthorHandler (some memberAlice) { name := some (.pStr "X") } sampleState).1 ≠
      .errorResp 403 "permission_denied" := by
  exact ⟨by decide, by decide⟩

/-- C4 amended: a POST /api/authors/ by an authenticated MEMBER is answered
exactly like an unauthenticated one: 401 with code not_authenticated; the
handler does not distinguish the two cases. -/
theorem member_create_author_gets_not_authenticated (u : User)
    (body : AuthorBody) (st : LibState) (hrole : u.role = "MEMBER") :
    createAuthorHandler (some u) body st = createAuthorHandler none body st ∧
    (createAuthorHandler (some u) body st).1 = .errorResp 401 "not_authenticated" := by
  have h : require_role (some u) ["LIBRARIAN", "ADMIN"] = false := by
    show (["LIBRARIAN", "ADMIN"].map pyUpper).contains (pyUpper u.role) = false
    rw [hrole]
    decide
  have hn : require_role none ["LIBRARIAN", "ADMIN"] = false := rfl
  constructor
  · simp only [createAuthorHandler, h, hn, Bool.not_false, if_true]
  · simp only [createAuthorHandler, h, Bool.not_false, if_true]

/-- C4 witness: alice (role MEMBER) posting an author gets the same 401
not_authenticated reply an anonymous caller gets. -/
theorem member_create_author_gets_not_authenticated_witness :
    memberAlice.role = "MEMBER" ∧
    (createAuthorHandler (some memberAlice) { name := some (.pStr "X") } sampleState =
       createAuthorHandler none { name := some (.pStr "X") } sampleState ∧
     (createAuthorHandler (some memberAlice) { name := some (.pStr "X") } sampleState).1 =
       .errorResp 401 "not_authenticated") :=
  ⟨rfl, member_create_author_gets_not_authenticated memberAlice
     { name := some (.pStr "X") } sampleState rfl⟩

/-- C5 counterexample: the resource-path helper yields a detail match for a
remainder with an extra trailing segment, and also for the non-positive ids
0 and -2, all of which the claim says must be non-matches. -/
theorem parse_resource_path_counterexample :
    (parseResourcePath "/api/authors/3/extra" "/api/authors/").2 = some 3 ∧
    (parseResourcePath "/api/authors/3/extra" "/api/authors/").2 ≠ none ∧
    (parseResourcePath "/api/authors/0/" "/api/authors/").2 = some 0 ∧
    (parseResourcePath "/api/authors/-2/" "/api/authors/").2 = some (-2) := by
  exact ⟨by decide, by decide, by decide, by decide⟩

/-- C5 amended: for a path under a slash-terminated resource path piece
with non-empty remainder other than "/", the id produced is exactly the
Python int() parse of the FIRST '/'-separated segment of the remainder:
any integer (also zero or negative, with sign, whitespace or underscores)
matches regardless of extra trailing segments, and only a first segment
that fails integer parsing is a non-match. -/
theorem parse_resource_path_first_segment (path pfx : String)
    (hslash : strEndsWithSlash pfx = true)
    (hstart : listStartsWith path.data pfx.data = true)
    (h1 : path.data.drop pfx.data.length ≠ [])
    (h2 : path.data.drop pfx.data.length ≠ ['/']) :
    (parseResourcePath path pfx).2 =
      pyCharsToInt? ((splitCharAux '/' (path.data.drop pfx.data.length) []).headD []) := by
  have e1 : ensureSlash pfx = pfx := by
    unfold ensureSlash
    rw [if_pos hslash]
  unfold parseResourcePath
  rw [e1]
  unfold parseResourcePathSlashed
  rw [if_pos hstart, if_neg (not_or.mpr ⟨h1, h2⟩)]
  cases pyCharsToInt? ((splitCharAux '/' (path.data.drop pfx.data.length) []).headD []) <;> rfl

/-- C5 witness: under "/api/authors/" the path "/api/authors/12/junk" has
non-empty remainder "12/junk" and parses to the id its first segment
yields. -/
theorem parse_resource_path_first_segment_witness :
    strEndsWithSlash "/api/authors/" = true ∧
    listStartsWith "/api/authors/12/junk".data "/api/authors/".data = true ∧
    "/api/authors/12/junk".data.drop "/api/authors/".data.length ≠ [] ∧
    "/api/authors/12/junk".data.drop "/api/authors/".data.length ≠ ['/'] ∧
    (parseResourcePath "/api/authors/12/junk" "/api/authors/").2 =
      pyCharsToInt?
        ((splitCharAux '/' ("/api/authors/12/junk".data.drop "/api/authors/".data.length) []).headD []) :=
  ⟨by decide, by decide, by decide, by decide,
   parse_resource_path_first_segment "/api/authors/12/junk" "/api/authors/"
     (by decide) (by decide) (by decide) (by decide)⟩

/-- C6: paginate clamps page and page_size to a minimum of 1, reports
count = length of the items, total_pages = the rational ceiling of
count / clamped page_size, and yields an empty slice (not an error)
whenever the clamped page lies beyond the last page. -/
theorem paginate_spec {α : Type} (items : List α) (page psz : Int) :
    (paginate items page psz).2.page = max page 1 ∧
    (paginate items page psz).2.page_size = max psz 1 ∧
    (paginate items page psz).2.count = items.length ∧
    (((paginate items page psz).2.total_pages : Int) =
      ⌈(items.length : ℚ) / (((max psz 1).toNat : Nat) : ℚ)⌉) ∧
    (((paginate items page psz).2.total_pages : Int) < max page 1 →
      (paginate items page psz).1 = []) := by
  have hsmax : (1 : Int) ≤ max psz 1 := le_max_right psz 1
  have hs : 1 ≤ (max psz 1).toNat := by omega
  refine ⟨rfl, rfl, rfl, natCeilDiv_cast items.length (max psz 1).toNat hs, ?_⟩
  intro hlt
  have hlt2 : (((items.length + (max psz 1).toNat - 1) / (max psz 1).toNat : Nat) : Int) <
      max page 1 := hlt
  show (items.drop ((max page 1 - 1) * max psz 1).toNat).take (max psz 1).toNat = []
  have hp1 : (1 : Int) ≤ max page 1 := le_max_right page 1
  set t := items.length with htdef
  set s := (max psz 1).toNat with hsdef
  have hB : t + s - 1 < ((t + s - 1) / s + 1) * s :=
    (Nat.div_lt_iff_lt_mul hs).mp (Nat.lt_succ_self _)
  set z := (t + s - 1) / s with hzdef
  have hB2 : t + s - 1 < z * s + s := by
    calc t + s - 1 < (z + 1) * s := hB
    _ = z * s + s := by ring
  have htz : t ≤ z * s := by
    set a := z * s with hadef
    omega
  have hzle : (z : Int) ≤ max page 1 - 1 := by omega
  have hsm0 : (0 : Int) ≤ max psz 1 := by omega
  have hscast : ((s : Nat) : Int) = max psz 1 := by
    rw [hsdef]
    exact Int.toNat_of_nonneg hsm0
  have hX : (t : Int) ≤ (max page 1 - 1) * max psz 1 := by
    calc (t : Int) ≤ ((z * s : Nat) : Int) := by exact_mod_cast htz
    _ = (z : Int) * ((s : Nat) : Int) := by push_cast; ring
    _ = (z : Int) * max psz 1 := by rw [hscast]
    _ ≤ (max page 1 - 1) * max psz 1 := by
        exact mul_le_mul_of_nonneg_right hzle hsm0
  have hX0 : (0 : Int) ≤ (max page 1 - 1) * max psz 1 :=
    mul_nonneg (by omega) hsm0
  have hstart : t ≤ ((max page 1 - 1) * max psz 1).toNat :=
    (Int.le_toNat hX0).mpr hX
  rw [List.drop_eq_nil_of_le hstart]
  exact List.take_nil

/-- C6 witness: three items with page_size 2 give two pages; requesting
page 5 is beyond the last page and yields an empty slice. -/
theorem paginate_spec_witness :
    ((paginate ([10, 20, 30] : List Nat) 5 2).2.total_pages : Int) < max (5 : Int) 1 ∧
    (paginate ([10, 20, 30] : List Nat) 5 2).1 = [] :=
  ⟨by decide, (paginate_spec ([10, 20, 30] : List Nat) 5 2).2.2.2.2 (by decide)⟩

/-- Appending a loan for a pair with no currently active loan preserves
the at-most-one-active invariant. -/
theorem atMostOneActive_append (loans : List Loan) (nl : Loan)
    (h : atMostOneActive loans)
    (hnone : loans.find? (activeFor nl.user_id nl.book_id) = none) :
    atMostOneActive (loans ++ [nl]) := by
  intro uid bid
  rw [List.filter_append]
  by_cases hpair : uid = nl.user_id ∧ bid = nl.book_id
  · obtain ⟨h1, h2⟩ := hpair
    subst h1
    subst h2
    rw [filter_eq_nil_of_find?_none _ _ hnone, List.nil_append]
    exact le_trans (List.length_filter_le _ _) (by simp)
  · have hanl : activeFor uid bid nl = false := by
      unfold activeFor
      rcases not_and_or.mp hpair with hc | hc
      · have hb : (nl.user_id == uid) = false := by
          simp only [beq_eq_false_iff_ne, ne_eq]
          exact fun hh => hc hh.symm
        simp [hb]
      · have hb : (nl.book_id == bid) = false := by
          simp only [beq_eq_false_iff_ne, ne_eq]
          exact fun hh => hc hh.symm
        simp [hb]
    have hfil : List.filter (activeFor uid bid) [nl] = [] := by
      simp [List.filter, hanl]
    rw [hfil, List.append_nil]
    exact h uid bid

/-- The borrow handler preserves the at-most-one-active-loan invariant on
every input whatsoever. -/
theorem borrow_preserves_atMostOneActive (user : Option User)
    (body : BorrowBody) (now : Int) (st : LibState)
    (h : atMostOneActive st.loans) :
    atMostOneActive ((borrowHandler user body now st).2.1).loans := by
  simp only [borrowHandler]
  split
  · exact h
  split
  · exact h
  split
  · exact h
  split
  · exact h
  split
  · exact h
  split
  · exact h
  split
  · exact h
  · rename_i heq
    exact atMostOneActive_append st.loans _ h heq

/-- C1: a valid borrow request (authenticated role, truthy integer
book_id, book present with at least one available copy, no active loan by
that user on that book) answers 201 with a new loan whose due date is its
borrow date plus 14 days and whose returned_at is unset, saves books then
loans, decrements the book's available copies by one, appends exactly that
one loan, and leaves exactly one active loan for the pair. -/
theorem borrow_success_decrements_and_creates_loan (u : User)
    (body : BorrowBody) (now : Int) (st : LibState) (bk : Book) (bid : Int)
    (hrole : require_role (some u) ["MEMBER", "LIBRARIAN", "ADMIN"] = true)
    (hv : pyOr2 (body.book_id.getD PyVal.pNull) (body.book.getD PyVal.pNull) =
      PyVal.pInt bid)
    (hbid0 : bid ≠ 0)
    (hbk : st.books.find? (hasId bid) = some bk)
    (havail : 1 ≤ bk.available_copies)
    (hnodup : st.loans.find? (activeFor u.id bid) = none) :
    ∃ nl st2,
      borrowHandler (some u) body now st =
        (.loanResp 201 nl, st2, [SaveEvent.saveBooks, SaveEvent.saveLoans]) ∧
      st2.books.find? (hasId bid) =
        some { bk with available_copies := bk.available_copies - 1 } ∧
      st2.loans = st.loans ++ [nl] ∧
      nl.user_id = u.id ∧ nl.book_id = bid ∧ nl.returned_at = none ∧
      nl.borrowed_at = now ∧ nl.due_at = nl.borrowed_at + days 14 ∧
      (st2.loans.filter (activeFor u.id bid)).length = 1 := by
  have htr : (PyVal.pInt bid).truthy = true := by
    simp only [PyVal.truthy]
    exact bne_iff_ne.mpr hbid0
  have hav : ¬ bk.available_copies < 1 := by omega
  simp only [borrowHandler, hrole, Bool.not_true, Bool.false_eq_true, if_false,
    hv, htr, PyVal.toInt?, hbk, hnodup, if_neg hav]
  refine ⟨_, _, rfl, ?_, rfl, rfl, rfl, rfl, rfl, rfl, ?_⟩
  · have hf2 : hasId bid
        ((fun b => { b with available_copies := b.available_copies - 1 }) bk) = true := by
      have h0 : hasId bid bk = true := List.find?_some hbk
      exact h0
    exact find?_updateFirst _ _ _ _ hbk hf2
  · rw [List.filter_append, filter_eq_nil_of_find?_none _ _ hnodup, List.nil_append]
    simp [List.filter, activeFor]

/-- C1 witness: alice borrows book 1 (two copies available, no prior loan)
from the sample state at time 0. -/
theorem borrow_success_decrements_and_creates_loan_witness :
    require_role (some memberAlice) ["MEMBER", "LIBRARIAN", "ADMIN"] = true ∧
    pyOr2 (borrowBody1.book_id.getD PyVal.pNull) (borrowBody1.book.getD PyVal.pNull) =
      PyVal.pInt 1 ∧
    sampleState.books.find? (hasId 1) = some sampleBook ∧
    1 ≤ sampleBook.available_copies ∧
    sampleState.loans.find? (activeFor memberAlice.id 1) = none ∧
    (∃ nl st2,
      borrowHandler (some memberAlice) borrowBody1 0 sampleState =
        (.loanResp 201 nl, st2, [SaveEvent.saveBooks, SaveEvent.saveLoans]) ∧
      st2.books.find? (hasId 1) =
        some { sampleBook with available_copies := sampleBook.available_copies - 1 } ∧
      st2.loans = sampleState.loans ++ [nl] ∧
      nl.user_id = memberAlice.id ∧ nl.book_id = 1 ∧ nl.returned_at = none ∧
      nl.borrowed_at = 0 ∧ nl.due_at = nl.borrowed_at + days 14 ∧
      (st2.loans.filter (activeFor memberAlice.id 1)).length = 1) :=
  ⟨by decide, by decide, by decide, by decide, by decide,
   borrow_success_decrements_and_creates_loan memberAlice borrowBody1 0 sampleState
     sampleBook 1 (by decide) (by decide) (by decide) (by decide) (by decide) (by decide)⟩

/-- C3: when the requesting user already holds an unreturned loan on a
book that still has available copies, a second borrow request answers 409
with code duplicate_loan and changes nothing; moreover the borrow handler
preserves the at-most-one-active-loan-per-pair invariant on every input,
so at most one active loan ever exists per (user_id, book_id) pair. -/
theorem borrow_duplicate_conflict (u : User) (body : BorrowBody) (now : Int)
    (st : LibState) (bk : Book) (bid : Int) (l0 : Loan)
    (hrole : require_role (some u) ["MEMBER", "LIBRARIAN", "ADMIN"] = true)
    (hv : pyOr2 (body.book_id.getD PyVal.pNull) (body.book.getD PyVal.pNull) =
      PyVal.pInt bid)
    (hbid0 : bid ≠ 0)
    (hbk : st.books.find? (hasId bid) = some bk)
    (havail : 1 ≤ bk.available_copies)
    (hdup : st.loans.find? (activeFor u.id bid) = some l0) :
    borrowHandler (some u) body now st = (.errorResp 409 "duplicate_loan", st, []) ∧
    ∀ (user2 : Option User) (body2 : BorrowBody) (now2 : Int) (st2 : LibState),
      atMostOneActive st2.loans →
      atMostOneActive ((borrowHandler user2 body2 now2 st2).2.1).loans := by
  constructor
  · have htr : (PyVal.pInt bid).truthy = true := by
      simp only [PyVal.truthy]
      exact bne_iff_ne.mpr hbid0
    have hav : ¬ bk.available_copies < 1 := by omega
    simp only [borrowHandler, hrole, Bool.not_true, Bool.false_eq_true, if_false,
      hv, htr, PyVal.toInt?, hbk, hdup, if_neg hav]
  · exact fun user2 body2 now2 st2 hinv =>
      borrow_preserves_atMostOneActive user2 body2 now2 st2 hinv

/-- C3 witness: alice, already holding the active sample loan on book 1
while two copies remain available, borrows book 1 again and receives 409
duplicate_loan with nothing written. -/
theorem borrow_duplicate_conflict_witness :
    require_role (some memberAlice) ["MEMBER", "LIBRARIAN", "ADMIN"] = true ∧
    stateWithDupRisk.books.find? (hasId 1) = some sampleBook ∧
    stateWithDupRisk.loans.find? (activeFor memberAlice.id 1) = some sampleLoan ∧
    borrowHandler (some memberAlice) borrowBody1 0 stateWithDupRisk =
      (.errorResp 409 "duplicate_loan", stateWithDupRisk, []) :=
  ⟨by decide, by decide, by decide,
   (borrow_duplicate_conflict memberAlice borrowBody1 0 stateWithDupRisk
     sampleBook 1 sampleLoan (by decide) (by decide) (by decide) (by decide)
     (by decide) (by decide)).1⟩

/-- C9: whenever the borrow handler answers an error envelope (missing or
invalid book_id, book not found, no copies, duplicate loan), it neither
saves books nor loans and the resulting state is exactly the pre-state. -/
theorem borrow_error_preserves_state (user : Option User) (body : BorrowBody)
    (now : Int) (st : LibState) (hs : Nat) (c : String)
    (h : (borrowHandler user body now st).1 = .errorResp hs c) :
    (borrowHandler user body now st).2.1 = st ∧
    (borrowHandler user body now st).2.2 = [] := by
  rcases borrow_result_cases user body now st with h2 | ⟨nl, h2⟩
  · exact ⟨by rw [h2], by rw [h2]⟩
  · rw [h] at h2
    exact ApiResult.noConfusion h2

/-- C9 witness: a borrow request with no book_id at all fails with 400
invalid and leaves the sample state untouched with no saves. -/
theorem borrow_error_preserves_state_witness :
    (borrowHandler (some memberAlice) { book_id := none, book := none } 0 sampleState).1 =
      .errorResp 400 "invalid" ∧
    ((borrowHandler (some memberAlice) { book_id := none, book := none } 0 sampleState).2.1 =
      sampleState ∧
     (borrowHandler (some memberAlice) { book_id := none, book := none } 0 sampleState).2.2 =
      []) :=
  ⟨by decide,
   borrow_error_preserves_state (some memberAlice) { book_id := none, book := none }
     0 sampleState 400 "invalid" (by decide)⟩

/-- C2: every valid return request (authenticated role, target resolved by
the handler's selector from the body, whether by explicit loan_id or by
(book_id, requesting user, unreturned); matching unreturned loan owned by
the user or with staff rights; book still present) answers 200 with the
loan closed at the current time, saves books then loans, increments the
book's available copies by one, sets exactly the targeted loan's
returned_at in place, and the loan's derived status becomes RETURNED. -/
theorem return_success_increments_and_marks_returned (u : User)
    (body : ReturnBody) (now : Int) (st : LibState) (ln : Loan) (bk : Book)
    (sel : ReturnSel)
    (hrole : require_role (some u) ["MEMBER", "LIBRARIAN", "ADMIN"] = true)
    (hsel : returnSelOf body = sel)
    (hfind : st.loans.find? (returnPred u sel) = some ln)
    (hunret : ln.returned_at = none)
    (hown : ln.user_id = u.id ∨ require_role (some u) ["LIBRARIAN", "ADMIN"] = true)
    (hbk : st.books.find? (hasId ln.book_id) = some bk) :
    ∃ st2 pre post,
      returnHandler (some u) body now st =
        (.loanResp 200 { ln with returned_at := some now }, st2,
         [SaveEvent.saveBooks, SaveEvent.saveLoans]) ∧
      st2.books.find? (hasId ln.book_id) =
        some { bk with available_copies := bk.available_copies + 1 } ∧
      st.loans = pre ++ ln :: post ∧
      st2.loans = pre ++ { ln with returned_at := some now } :: post ∧
      Loan.status { ln with returned_at := some now } = "RETURNED" := by
  have hperm : (ln.user_id != u.id &&
      !require_role (some u) ["LIBRARIAN", "ADMIN"]) = false := by
    rcases hown with hc | hc
    · rw [hc]
      simp
    · rw [hc]
      simp
  have hret : ln.returned_at.isSome = false := by
    rw [hunret]
    rfl
  obtain ⟨pre, post, he, hprefix, hupd⟩ :=
    updateFirst_decomp (returnPred u sel)
      (fun l => { l with returned_at := some now }) st.loans ln hfind
  simp only [returnHandler, hrole, Bool.not_true, Bool.false_eq_true, if_false,
    hsel, hfind, hperm, hret, hbk]
  refine ⟨_, pre, post, rfl, ?_, he, ?_, rfl⟩
  · have hf2 : hasId ln.book_id
        ((fun b => { b with available_copies := b.available_copies + 1 }) bk) = true := by
      have h0 : hasId ln.book_id bk = true := List.find?_some hbk
      exact h0
    exact find?_updateFirst _ _ _ _ hbk hf2
  · exact hupd

/-- C2 witness: alice returns her active loan on book 1 by sending its
book_id (no loan_id), exercising the (book_id, user, unreturned)
resolution path; the book goes back to two copies and the loan closes. -/
theorem return_success_increments_and_marks_returned_witness :
    require_role (some memberAlice) ["MEMBER", "LIBRARIAN", "ADMIN"] = true ∧
    returnSelOf returnBodyByBook = ReturnSel.byBook 1 ∧
    stateWithLoan.loans.find? (returnPred memberAlice (ReturnSel.byBook 1)) =
      some sampleLoan ∧
    sampleLoan.returned_at = none ∧
    stateWithLoan.books.find? (hasId sampleLoan.book_id) = some sampleBookOneCopy ∧
    (∃ st2 pre post,
      returnHandler (some memberAlice) returnBodyByBook 100 stateWithLoan =
        (.loanResp 200 { sampleLoan with returned_at := some 100 }, st2,
         [SaveEvent.saveBooks, SaveEvent.saveLoans]) ∧
      st2.books.find? (hasId sampleLoan.book_id) =
        some { sampleBookOneCopy with
                available_copies := sampleBookOneCopy.available_copies + 1 } ∧
      stateWithLoan.loans = pre ++ sampleLoan :: post ∧
      st2.loans = pre ++ { sampleLoan with returned_at := some 100 } :: post ∧
      Loan.status { sampleLoan with returned_at := some 100 } = "RETURNED") :=
  ⟨by decide, by decide, by decide, by decide, by decide,
   return_success_increments_and_marks_returned memberAlice returnBodyByBook 100
     stateWithLoan sampleLoan sampleBookOneCopy (ReturnSel.byBook 1) (by decide)
     (by decide) (by decide) (by decide) (Or.inl (by decide)) (by decide)⟩

end FullLibraryApi
